import Mathlib

/-!
Shallow embedding of the relay-session and live-statistics control plane of
`protocol/api/api.go` (package `api` of SpooderfyBot/live).

The Go server holds a session registry `map[string]*rtmprelay.RtmpRelay` and a
configured RTMP address.  HTTP handlers `handlePush`, `handlePull`, `handleGet`,
`handleReset`, `handleDelete`, `GetLiveStat` and `GetLiveStatics` are embedded
as pure state-passing functions; the results of external collaborators (the
relay worker factory / Start(), the room-key store key generation) are supplied
as explicit parameters, since they are outside this package.
-/

namespace LiveApi

/-- Go `map[string]v` lookup, embedded over an association list. -/
def mapLookup {α : Type} (m : List (String × α)) (k : String) : Option α :=
  match m with
  | [] => none
  | (k2, v) :: rest => if k2 = k then some v else mapLookup rest k

/-- Go `delete(m, k)`: the key is absent afterwards. -/
def mapErase {α : Type} (m : List (String × α)) (k : String) : List (String × α) :=
  match m with
  | [] => []
  | (k2, v) :: rest => if k2 = k then mapErase rest k else (k2, v) :: mapErase rest k

/-- Go `m[k] = v`: the key maps to `v` afterwards, all other keys unchanged. -/
def mapInsert {α : Type} (m : List (String × α)) (k : String) (v : α) : List (String × α) :=
  (k, v) :: mapErase m k

/-- Modelled from the spec: the relay worker produced by
`rtmprelay.NewRtmpRelay(&playUrl, &publishUrl)` (the `rtmprelay` package is not
under `src/`).  Per the spec the factory takes the URL the relay reads from
(its source) first and the URL it publishes to (its target) second: a push
session reads from the local engine and writes to the remote target, a pull
session reads from the remote source and writes into the local engine. -/
structure RtmpRelay where
  playUrl : String
  publishUrl : String
deriving DecidableEq, Repr

/-- The api `Server`: session registry plus configured RTMP address
(`av.Handler` is carried separately as the stream registry below). -/
structure Server where
  session : List (String × RtmpRelay)
  rtmpAddr : String
deriving DecidableEq, Repr

/-- Bandwidth counters of the instrumented reader/writer variants
(`rtmp.ReadBWInfo` / `rtmp.WriteBWInfo`). -/
structure BWInfo where
  streamId : Nat
  videoDatainBytes : Nat
  videoSpeedInBytesperMS : Nat
  audioDatainBytes : Nat
  audioSpeedInBytesperMS : Nat
deriving DecidableEq, Repr

/-- A stream reader: either the instrumented `*rtmp.VirReader` carrying
bandwidth counters and a URL, or some other `av.ReadCloser` implementation. -/
inductive Reader where
  | virReader (url : String) (bw : BWInfo)
  | otherReader
deriving DecidableEq, Repr

/-- A stream writer: either the instrumented `*rtmp.VirWriter`, or some other
`av.WriteCloser` implementation. -/
inductive Writer where
  | virWriter (url : String) (bw : BWInfo)
  | otherWriter
deriving DecidableEq, Repr

/-- An `*rtmp.Stream`: its current reader (nil allowed) and its writer set
(`GetWs()`), each entry an `*rtmp.PackWriterCloser` whose writer may be nil. -/
structure Stream where
  reader : Option Reader
  ws : List (String × Option Writer)
deriving DecidableEq, Repr

/-- The `stream` JSON record of the stats endpoints. -/
structure StreamStat where
  key : String
  url : String
  streamId : Nat
  videoTotalBytes : Nat
  videoSpeed : Nat
  audioTotalBytes : Nat
  audioSpeed : Nat
deriving DecidableEq, Repr

/-- The `streams` JSON record: publishers and players. -/
structure Streams where
  publishers : List StreamStat
  players : List StreamStat
deriving DecidableEq, Repr

/-- The `data` field of the response envelope (`interface{}` in Go). -/
inductive RespData where
  | noData
  | str (s : String)
  | stat (s : StreamStat)
  | stats (s : Streams)
deriving DecidableEq, Repr

/-- The response envelope `{status, data}`. -/
structure Response where
  status : Nat
  data : RespData
deriving DecidableEq, Repr

/-- The outcome of `req.ParseForm()` plus the four form fields read by the
push/pull handlers (`Form.Get` of a missing field yields `""`). -/
inductive FormReq where
  | parseFail
  | form (oper app name url : String)
deriving DecidableEq, Repr

/-- Embeds `Server.handlePush`.  `startErr` is the result of the external
`pushRtmprelay.Start()` call: `some e` embeds a non-nil error `e`. -/
def handlePush (server : Server) (startErr : Option String) (req : FormReq) :
    Response × Server :=
  match req with
  | .parseFail =>
      (⟨200, .str "url: /control/push?&oper=start&app=live&name=123456&url=rtmp://192.168.16.136/live/123456"⟩,
       server)
  | .form oper app name url =>
      if app.length ≤ 0 ∨ name.length ≤ 0 ∨ url.length ≤ 0 then
        (⟨200, .str "control push parameter error, please check them."⟩, server)
      else
        let localurl := "rtmp://127.0.0.1" ++ server.rtmpAddr ++ "/" ++ app ++ "/" ++ name
        let remoteurl := url
        let keyString := "push:" ++ app ++ "/" ++ name
        if oper = "stop" then
          match mapLookup server.session keyString with
          | none =>
              (⟨200, .str ("<h1>session key[" ++ keyString ++ "] not exist, please check it again.</h1>")⟩,
               server)
          | some _ =>
              (⟨200, .str ("<h1>push url stop " ++ url ++ " ok</h1></br>")⟩,
               { server with session := mapErase server.session keyString })
        else
          let relay : RtmpRelay := ⟨localurl, remoteurl⟩
          match startErr with
          | some e => (⟨200, .str ("push error=" ++ e)⟩, server)
          | none =>
              (⟨200, .str ("<h1>push url start " ++ url ++ " ok</h1></br>")⟩,
               { server with session := mapInsert server.session keyString relay })

/-- Embeds `Server.handlePull`.  The Go code names the locally computed URL
`remoteurl` and the request url parameter `localurl` (swapped relative to
`handlePush`), sets status 400 on every branch after form parsing, and reuses
the `push ...` message strings. -/
def handlePull (server : Server) (startErr : Option String) (req : FormReq) :
    Response × Server :=
  match req with
  | .parseFail =>
      (⟨400, .str "url: /control/pull?&oper=start&app=live&name=123456&url=rtmp://192.168.16.136/live/123456"⟩,
       server)
  | .form oper app name url =>
      if app.length ≤ 0 ∨ name.length ≤ 0 ∨ url.length ≤ 0 then
        (⟨400, .str "control push parameter error, please check them."⟩, server)
      else
        let remoteurl := "rtmp://127.0.0.1" ++ server.rtmpAddr ++ "/" ++ app ++ "/" ++ name
        let localurl := url
        let keyString := "pull:" ++ app ++ "/" ++ name
        if oper = "stop" then
          match mapLookup server.session keyString with
          | none =>
              (⟨400, .str ("session key[" ++ keyString ++ "] not exist, please check it again.")⟩,
               server)
          | some _ =>
              (⟨400, .str ("<h1>push url stop " ++ url ++ " ok</h1></br>")⟩,
               { server with session := mapErase server.session keyString })
        else
          let relay : RtmpRelay := ⟨localurl, remoteurl⟩
          match startErr with
          | some e => (⟨400, .str ("push error=" ++ e)⟩, server)
          | none =>
              (⟨400, .str ("<h1>push url start " ++ url ++ " ok</h1></br>")⟩,
               { server with session := mapInsert server.session keyString relay })

/-- The `stream` record built from a key, a reader/writer URL and its
bandwidth counters (the field order of the Go literal). -/
def mkStat (k url : String) (bw : BWInfo) : StreamStat :=
  ⟨k, url, bw.streamId, bw.videoDatainBytes, bw.videoSpeedInBytesperMS,
   bw.audioDatainBytes, bw.audioSpeedInBytesperMS⟩

/-- The body of `Server.GetLiveStat` after form parsing: resolve the stream by
key `"live/<room>"` and project one publisher-shaped record. -/
def getLiveStat (reg : List (String × Stream)) (room : String) : Response :=
  let key := "live/" ++ room
  match mapLookup reg key with
  | none => ⟨404, .str "No room was found"⟩
  | some s =>
      match s.reader with
      | none => ⟨500, .str "This room has no readers"⟩
      | some (.virReader url bw) => ⟨200, .stat (mkStat key url bw)⟩
      | some .otherReader =>
          ⟨500, .str "Reader returned by RTMP stream was not virtual reader."⟩

/-- The projection built by `Server.GetLiveStatics`: one publisher entry per
stream whose reader is a `VirReader`, one player entry per writer-set entry
whose writer is a `VirWriter`; everything else is skipped. -/
def getLiveStatics (reg : List (String × Stream)) : Streams :=
  { publishers := reg.filterMap (fun kv =>
      match kv.2.reader with
      | some (.virReader url bw) => some (mkStat kv.1 url bw)
      | _ => none),
    players := reg.flatMap (fun kv =>
      kv.2.ws.filterMap (fun wkv =>
        match wkv.2 with
        | some (.virWriter url bw) => some (mkStat kv.1 url bw)
        | _ => none)) }

/-- The outcome of `ParseForm` plus the `room` field for the room-based
handlers (`Form.Get` of a missing field yields `""`). -/
inductive RoomReq where
  | parseFail
  | room (r : String)
deriving DecidableEq, Repr

/-- Embeds `Server.GetLiveStat` including its `ParseForm` check (which answers 500,
not 400). -/
def handleLiveStat (reg : List (String × Stream)) (req : RoomReq) : Response :=
  match req with
  | .parseFail => ⟨500, .str "Failed to parse form"⟩
  | .room room => getLiveStat reg room

/-- Modelled from the spec: the room-key store collaborator
(`configure.RoomKeys`, not under `src/`), a room-to-access-key mapping with
fallible get/set/delete operations invoked by the control handlers. -/
structure RoomKeys where
  keys : List (String × String)
deriving DecidableEq, Repr

/-- Embeds `Server.handleReset`.  `newKey` is the fresh key produced by the external
`RoomKeys.SetKey` collaborator (modelled from the spec: set stores the new key
for the room and returns it). -/
def handleReset (rk : RoomKeys) (newKey : String) (req : RoomReq) :
    Response × RoomKeys :=
  match req with
  | .parseFail => (⟨400, .str "url: /control/reset?room=<ROOM_NAME>"⟩, rk)
  | .room room =>
      if room.length = 0 then
        (⟨400, .str "url: /control/reset?room=<ROOM_NAME>"⟩, rk)
      else
        (⟨200, .str newKey⟩, ⟨mapInsert rk.keys room newKey⟩)

/-- Embeds `Server.handleGet` (modelled from the spec for the `RoomKeys.GetKey`
collaborator: returns the stored key, or an error for an unknown room whose
text becomes the payload with status 400). -/
def handleGet (rk : RoomKeys) (req : RoomReq) : Response × RoomKeys :=
  match req with
  | .parseFail => (⟨400, .str "url: /control/get?room=<ROOM_NAME>"⟩, rk)
  | .room room =>
      if room.length = 0 then
        (⟨400, .str "url: /control/get?room=<ROOM_NAME>"⟩, rk)
      else
        match mapLookup rk.keys room with
        | some msg => (⟨200, .str msg⟩, rk)
        | none => (⟨400, .str ("no key found for room " ++ room)⟩, rk)

/-- Embeds `Server.handleDelete` (the stream teardown calls `TransStop` and
`CloseAndComplete` act on the external stream object; `DeleteChannel` is
modelled from the spec as removal reporting whether the room was present). -/
def handleDelete (reg : List (String × Stream)) (rk : RoomKeys) (req : RoomReq) :
    Response × RoomKeys :=
  match req with
  | .parseFail => (⟨400, .str "url: /control/delete?room=<ROOM_NAME>"⟩, rk)
  | .room room =>
      if room.length = 0 then
        (⟨400, .str "url: /control/delete?room=<ROOM_NAME>"⟩, rk)
      else
        match mapLookup reg ("live/" ++ room) with
        | none => (⟨404, .str "No room was found"⟩, rk)
        | some _ =>
            match mapLookup rk.keys room with
            | some _ => (⟨200, .str "Ok"⟩, ⟨mapErase rk.keys room⟩)
            | none => (⟨404, .str "room not found"⟩, rk)

/-- Embeds `r.Header.Get(k)`: the header value, or `""` when the header is absent. -/
def headerGet (headers : List (String × String)) (k : String) : String :=
  (mapLookup headers k).getD ""

/-- Embeds `checkAuth`: `true` means the request is rejected (the Go function writes
the 401 response and returns `true` when the `authorization` header differs
from the expected key). -/
def checkAuth (expectedKey : String) (headers : List (String × String)) : Bool :=
  headerGet headers "authorization" != expectedKey

/-- One control or stats operation of the mux in `Server.Serve`, with its
already-read request data. -/
inductive ApiOp where
  | push (req : FormReq)
  | pull (req : FormReq)
  | getRoom (req : RoomReq)
  | reset (req : RoomReq)
  | deleteRoom (req : RoomReq)
  | livestats
  | livestat (req : RoomReq)
deriving DecidableEq, Repr

/-- All state touched by the handlers: the api server (session registry), the
room-key store and the externally-owned stream registry. -/
structure World where
  server : Server
  roomKeys : RoomKeys
  streams : List (String × Stream)
deriving DecidableEq, Repr

/-- The handler bodies behind the auth gate, dispatched by route.  `startErr`
and `newKey` are the externally-determined collaborator results. -/
def dispatch (op : ApiOp) (w : World) (startErr : Option String) (newKey : String) :
    Response × World :=
  match op with
  | .push req =>
      let rs := handlePush w.server startErr req
      (rs.1, { w with server := rs.2 })
  | .pull req =>
      let rs := handlePull w.server startErr req
      (rs.1, { w with server := rs.2 })
  | .getRoom req =>
      let rs := handleGet w.roomKeys req
      (rs.1, { w with roomKeys := rs.2 })
  | .reset req =>
      let rs := handleReset w.roomKeys newKey req
      (rs.1, { w with roomKeys := rs.2 })
  | .deleteRoom req =>
      let rs := handleDelete w.streams w.roomKeys req
      (rs.1, { w with roomKeys := rs.2 })
  | .livestats => (⟨200, .stats (getLiveStatics w.streams)⟩, w)
  | .livestat req => (handleLiveStat w.streams req, w)

/-- Embeds `Server.Serve`: every route first runs `checkAuth` against the configured
api key and returns the fixed 401 response on mismatch, otherwise runs the
handler body. -/
def serve (apiKey : String) (headers : List (String × String)) (op : ApiOp)
    (w : World) (startErr : Option String) (newKey : String) : Response × World :=
  if checkAuth apiKey headers then
    (⟨401, .str "Unauthorized"⟩, w)
  else
    dispatch op w startErr newKey

theorem mapLookup_mapErase_self {α : Type} (m : List (String × α)) (k : String) :
    mapLookup (mapErase m k) k = none := by
  induction m with
  | nil => rfl
  | cons p rest ih =>
    obtain ⟨k2, v⟩ := p
    by_cases h : k2 = k
    · simpa [mapErase, h] using ih
    · simp [mapErase, mapLookup, h, ih]

theorem mapLookup_mapErase_ne {α : Type} (m : List (String × α)) (k k2 : String)
    (h : k2 ≠ k) : mapLookup (mapErase m k) k2 = mapLookup m k2 := by
  induction m with
  | nil => rfl
  | cons p rest ih =>
    obtain ⟨k3, v⟩ := p
    by_cases h3 : k3 = k
    · have hk2 : ¬(k = k2) := fun hc => h hc.symm
      simp [mapErase, mapLookup, h3, hk2, ih]
    · simp [mapErase, mapLookup, h3, ih]

theorem mapLookup_mapInsert_self {α : Type} (m : List (String × α)) (k : String)
    (v : α) : mapLookup (mapInsert m k v) k = some v := by
  simp [mapInsert, mapLookup]

theorem mapLookup_mapInsert_ne {α : Type} (m : List (String × α)) (k k2 : String)
    (v : α) (h : k2 ≠ k) :
    mapLookup (mapInsert m k v) k2 = mapLookup m k2 := by
  simp [mapInsert, mapLookup, Ne.symm h, mapLookup_mapErase_ne m k k2 h]

theorem handlePush_start_ok (server : Server) (oper app name url : String)
    (ha : 0 < app.length) (hn : 0 < name.length) (hu : 0 < url.length)
    (ho : oper ≠ "stop") :
    handlePush server none (.form oper app name url) =
      (⟨200, .str ("<h1>push url start " ++ url ++ " ok</h1></br>")⟩,
       { server with
           session := mapInsert server.session ("push:" ++ app ++ "/" ++ name)
             ⟨"rtmp://127.0.0.1" ++ server.rtmpAddr ++ "/" ++ app ++ "/" ++ name, url⟩ }) := by
  have hg : ¬(app.length = 0 ∨ name.length = 0 ∨ url.length = 0) := by omega
  simp [handlePush, hg, ho]

theorem handlePush_start_err (server : Server) (oper app name url e : String)
    (ha : 0 < app.length) (hn : 0 < name.length) (hu : 0 < url.length)
    (ho : oper ≠ "stop") :
    handlePush server (some e) (.form oper app name url) =
      (⟨200, .str ("push error=" ++ e)⟩, server) := by
  have hg : ¬(app.length = 0 ∨ name.length = 0 ∨ url.length = 0) := by omega
  simp [handlePush, hg, ho]

theorem handlePush_stop_found (server : Server) (startErr : Option String)
    (app name url : String) (relay : RtmpRelay)
    (ha : 0 < app.length) (hn : 0 < name.length) (hu : 0 < url.length)
    (hfound : mapLookup server.session ("push:" ++ app ++ "/" ++ name) = some relay) :
    handlePush server startErr (.form "stop" app name url) =
      (⟨200, .str ("<h1>push url stop " ++ url ++ " ok</h1></br>")⟩,
       { server with
           session := mapErase server.session ("push:" ++ app ++ "/" ++ name) }) := by
  have hg : ¬(app.length = 0 ∨ name.length = 0 ∨ url.length = 0) := by omega
  simp [handlePush, hg, hfound]

theorem handlePush_stop_notfound (server : Server) (startErr : Option String)
    (app name url : String)
    (ha : 0 < app.length) (hn : 0 < name.length) (hu : 0 < url.length)
    (hnf : mapLookup server.session ("push:" ++ app ++ "/" ++ name) = none) :
    handlePush server startErr (.form "stop" app name url) =
      (⟨200, .str ("<h1>session key[" ++ ("push:" ++ app ++ "/" ++ name) ++
         "] not exist, please check it again.</h1>")⟩, server) := by
  have hg : ¬(app.length = 0 ∨ name.length = 0 ∨ url.length = 0) := by omega
  simp [handlePush, hg, hnf]

theorem handlePull_start_ok (server : Server) (oper app name url : String)
    (ha : 0 < app.length) (hn : 0 < name.length) (hu : 0 < url.length)
    (ho : oper ≠ "stop") :
    handlePull server none (.form oper app name url) =
      (⟨400, .str ("<h1>push url start " ++ url ++ " ok</h1></br>")⟩,
       { server with
           session := mapInsert server.session ("pull:" ++ app ++ "/" ++ name)
             ⟨url, "rtmp://127.0.0.1" ++ server.rtmpAddr ++ "/" ++ app ++ "/" ++ name⟩ }) := by
  have hg : ¬(app.length = 0 ∨ name.length = 0 ∨ url.length = 0) := by omega
  simp [handlePull, hg, ho]

theorem handlePull_start_err (server : Server) (oper app name url e : String)
    (ha : 0 < app.length) (hn : 0 < name.length) (hu : 0 < url.length)
    (ho : oper ≠ "stop") :
    handlePull server (some e) (.form oper app name url) =
      (⟨400, .str ("push error=" ++ e)⟩, server) := by
  have hg : ¬(app.length = 0 ∨ name.length = 0 ∨ url.length = 0) := by omega
  simp [handlePull, hg, ho]

theorem handlePull_stop_found (server : Server) (startErr : Option String)
    (app name url : String) (relay : RtmpRelay)
    (ha : 0 < app.length) (hn : 0 < name.length) (hu : 0 < url.length)
    (hfound : mapLookup server.session ("pull:" ++ app ++ "/" ++ name) = some relay) :
    handlePull server startErr (.form "stop" app name url) =
      (⟨400, .str ("<h1>push url stop " ++ url ++ " ok</h1></br>")⟩,
       { server with
           session := mapErase server.session ("pull:" ++ app ++ "/" ++ name) }) := by
  have hg : ¬(app.length = 0 ∨ name.length = 0 ∨ url.length = 0) := by omega
  simp [handlePull, hg, hfound]

theorem handlePull_stop_notfound (server : Server) (startErr : Option String)
    (app name url : String)
    (ha : 0 < app.length) (hn : 0 < name.length) (hu : 0 < url.length)
    (hnf : mapLookup server.session ("pull:" ++ app ++ "/" ++ name) = none) :
    handlePull server startErr (.form "stop" app name url) =
      (⟨400, .str ("session key[" ++ ("pull:" ++ app ++ "/" ++ name) ++
         "] not exist, please check it again.")⟩, server) := by
  have hg : ¬(app.length = 0 ∨ name.length = 0 ∨ url.length = 0) := by omega
  simp [handlePull, hg, hnf]

/-- C1 counterexample: on a server whose registry already holds
`push:live/room1`, a push start for the same pair does not leave the entry
unchanged: the stored relay handle is replaced by the newly created relay and
the reply is the ordinary start confirmation, not a session-exists notice. -/
theorem C1_counterexample :
    mapLookup ((handlePush ⟨[("push:live/room1", ⟨"oldplay", "oldpub"⟩)], ":1935"⟩ none
        (FormReq.form "start" "live" "room1" "rtmp://203.0.113.5/live/room1")).2).session
      "push:live/room1" =
      some ⟨"rtmp://127.0.0.1:1935/live/room1", "rtmp://203.0.113.5/live/room1"⟩ ∧
    ¬ (mapLookup ((handlePush ⟨[("push:live/room1", ⟨"oldplay", "oldpub"⟩)], ":1935"⟩ none
        (FormReq.form "start" "live" "room1" "rtmp://203.0.113.5/live/room1")).2).session
      "push:live/room1" = some ⟨"oldplay", "oldpub"⟩) ∧
    (handlePush ⟨[("push:live/room1", ⟨"oldplay", "oldpub"⟩)], ":1935"⟩ none
        (FormReq.form "start" "live" "room1" "rtmp://203.0.113.5/live/room1")).1.data =
      RespData.str "<h1>push url start rtmp://203.0.113.5/live/room1 ok</h1></br>" := by
  decide

/-- C1 (amended): for every start request (push or pull) whose session key
already has a registry entry, the handler does not detect the duplicate: it
runs the ordinary start path, and when the worker start succeeds it replaces
the stored relay handle with the newly created relay (the old handle is
overwritten, not kept) and returns the ordinary start confirmation. -/
theorem C1_duplicate_start_replaces (server : Server) (app name url : String)
    (oldPush oldPull : RtmpRelay)
    (ha : 0 < app.length) (hn : 0 < name.length) (hu : 0 < url.length)
    (hpush : mapLookup server.session ("push:" ++ app ++ "/" ++ name) = some oldPush)
    (hpull : mapLookup server.session ("pull:" ++ app ++ "/" ++ name) = some oldPull) :
    mapLookup ((handlePush server none (FormReq.form "start" app name url)).2).session
        ("push:" ++ app ++ "/" ++ name) =
      some ⟨"rtmp://127.0.0.1" ++ server.rtmpAddr ++ "/" ++ app ++ "/" ++ name, url⟩ ∧
    (oldPush ≠ ⟨"rtmp://127.0.0.1" ++ server.rtmpAddr ++ "/" ++ app ++ "/" ++ name, url⟩ →
      mapLookup ((handlePush server none (FormReq.form "start" app name url)).2).session
        ("push:" ++ app ++ "/" ++ name) ≠ some oldPush) ∧
    (handlePush server none (FormReq.form "start" app name url)).1.data =
      RespData.str ("<h1>push url start " ++ url ++ " ok</h1></br>") ∧
    mapLookup ((handlePull server none (FormReq.form "start" app name url)).2).session
        ("pull:" ++ app ++ "/" ++ name) =
      some ⟨url, "rtmp://127.0.0.1" ++ server.rtmpAddr ++ "/" ++ app ++ "/" ++ name⟩ ∧
    (oldPull ≠ ⟨url, "rtmp://127.0.0.1" ++ server.rtmpAddr ++ "/" ++ app ++ "/" ++ name⟩ →
      mapLookup ((handlePull server none (FormReq.form "start" app name url)).2).session
        ("pull:" ++ app ++ "/" ++ name) ≠ some oldPull) ∧
    (handlePull server none (FormReq.form "start" app name url)).1.data =
      RespData.str ("<h1>push url start " ++ url ++ " ok</h1></br>") := by
  have hne : ("start" : String) ≠ "stop" := by decide
  rw [handlePush_start_ok server "start" app name url ha hn hu hne,
      handlePull_start_ok server "start" app name url ha hn hu hne]
  refine ⟨mapLookup_mapInsert_self _ _ _, ?_, rfl,
    mapLookup_mapInsert_self _ _ _, ?_, rfl⟩
  · intro hdist hc
    rw [mapLookup_mapInsert_self] at hc
    exact hdist (Option.some.inj hc).symm
  · intro hdist hc
    rw [mapLookup_mapInsert_self] at hc
    exact hdist (Option.some.inj hc).symm

/-- C1 witness: instantiation of the amended duplicate-start claim on a
registry holding both session keys. -/
theorem C1_witness :
    mapLookup ((handlePush ⟨[("push:live/room1", ⟨"p1", "p2"⟩),
        ("pull:live/room1", ⟨"q1", "q2"⟩)], ":1935"⟩ none
        (FormReq.form "start" "live" "room1" "rtmp://u")).2).session
      ("push:" ++ "live" ++ "/" ++ "room1") =
      some ⟨"rtmp://127.0.0.1" ++ ":1935" ++ "/" ++ "live" ++ "/" ++ "room1", "rtmp://u"⟩ :=
  (C1_duplicate_start_replaces ⟨[("push:live/room1", ⟨"p1", "p2"⟩),
      ("pull:live/room1", ⟨"q1", "q2"⟩)], ":1935"⟩ "live" "room1" "rtmp://u"
    ⟨"p1", "p2"⟩ ⟨"q1", "q2"⟩ (by decide) (by decide) (by decide)
    (by decide) (by decide)).1

/-- C2: evaluation exhibiting the status-code defects in the code: a
successful pull stop and a successful pull start both answer status 400, while
a push request with a missing required parameter or an unparseable form
answers status 200. -/
theorem C2_status_defect_eval :
    (handlePull ⟨[("pull:live/room1", ⟨"a", "b"⟩)], ":1935"⟩ none
        (FormReq.form "stop" "live" "room1" "rtmp://r/x")).1 =
      ⟨400, RespData.str "<h1>push url stop rtmp://r/x ok</h1></br>"⟩ ∧
    (handlePull ⟨[], ":1935"⟩ none
        (FormReq.form "start" "live" "room1" "rtmp://r/x")).1.status = 400 ∧
    (handlePush ⟨[], ":1935"⟩ none (FormReq.form "start" "" "room1" "rtmp://r/x")).1 =
      ⟨200, RespData.str "control push parameter error, please check them."⟩ ∧
    (handlePush ⟨[], ":1935"⟩ none FormReq.parseFail).1.status = 200 := by
  decide

/-- C3: for every valid (app, name), a successful push start followed by a
push stop for the same pair leaves the session registry without the key
`push:<app>/<name>`, and a second stop on that key answers the
session-key-not-exist message and changes nothing, rather than succeeding. -/
theorem C3_push_start_stop_stop (server : Server) (app name url : String)
    (ha : 0 < app.length) (hn : 0 < name.length) (hu : 0 < url.length) :
    let k := "push:" ++ app ++ "/" ++ name
    let s1 := (handlePush server none (FormReq.form "start" app name url)).2
    let out2 := handlePush s1 none (FormReq.form "stop" app name url)
    let out3 := handlePush out2.2 none (FormReq.form "stop" app name url)
    mapLookup out2.2.session k = none ∧
    out3.1.data = RespData.str ("<h1>session key[" ++ k ++
      "] not exist, please check it again.</h1>") ∧
    out3.2 = out2.2 := by
  intro k s1 out2 out3
  have hne : ("start" : String) ≠ "stop" := by decide
  have h1 : s1 = { server with
      session := mapInsert server.session k
        ⟨"rtmp://127.0.0.1" ++ server.rtmpAddr ++ "/" ++ app ++ "/" ++ name, url⟩ } := by
    show (handlePush server none (FormReq.form "start" app name url)).2 = _
    rw [handlePush_start_ok server "start" app name url ha hn hu hne]
  have h2 : out2 = (⟨200, RespData.str ("<h1>push url stop " ++ url ++ " ok</h1></br>")⟩,
      { s1 with session := mapErase s1.session k }) := by
    show handlePush s1 none (FormReq.form "stop" app name url) = _
    refine handlePush_stop_found s1 none app name url
      ⟨"rtmp://127.0.0.1" ++ server.rtmpAddr ++ "/" ++ app ++ "/" ++ name, url⟩ ha hn hu ?_
    rw [h1]
    exact mapLookup_mapInsert_self _ _ _
  have hnone : mapLookup out2.2.session k = none := by
    rw [h2]
    exact mapLookup_mapErase_self _ _
  have h3 := handlePush_stop_notfound out2.2 none app name url ha hn hu hnone
  refine ⟨hnone, ?_, ?_⟩
  · show out3.1.data = _
    rw [show out3 = handlePush out2.2 none (FormReq.form "stop" app name url) from rfl, h3]
  · show out3.2 = out2.2
    rw [show out3 = handlePush out2.2 none (FormReq.form "stop" app name url) from rfl, h3]

/-- C3 witness: instantiation of the start-stop-stop claim on a concrete
server and endpoint. -/
theorem C3_witness :
    let k := "push:" ++ "live" ++ "/" ++ "room1"
    let s1 := ((handlePush ⟨[], ":1935"⟩ none
      (FormReq.form "start" "live" "room1" "rtmp://203.0.113.5/live/room1")).2)
    let out2 := handlePush s1 none (FormReq.form "stop" "live" "room1" "rtmp://203.0.113.5/live/room1")
    let out3 := handlePush out2.2 none (FormReq.form "stop" "live" "room1" "rtmp://203.0.113.5/live/room1")
    mapLookup out2.2.session k = none ∧
    out3.1.data = RespData.str ("<h1>session key[" ++ k ++
      "] not exist, please check it again.</h1>") ∧
    out3.2 = out2.2 :=
  C3_push_start_stop_stop ⟨[], ":1935"⟩ "live" "room1" "rtmp://203.0.113.5/live/room1"
    (by decide) (by decide) (by decide)

/-- C4: for every start request (push or pull), a failing worker start leaves
the whole state unchanged and answers an error message, while a succeeding
worker start inserts exactly the session key (all other keys unchanged) and
answers the confirmation string. -/
theorem C4_start_effect (server : Server) (oper app name url e : String)
    (ha : 0 < app.length) (hn : 0 < name.length) (hu : 0 < url.length)
    (ho : oper ≠ "stop") :
    handlePush server (some e) (FormReq.form oper app name url) =
      (⟨200, RespData.str ("push error=" ++ e)⟩, server) ∧
    handlePull server (some e) (FormReq.form oper app name url) =
      (⟨400, RespData.str ("push error=" ++ e)⟩, server) ∧
    mapLookup ((handlePush server none (FormReq.form oper app name url)).2).session
        ("push:" ++ app ++ "/" ++ name) =
      some ⟨"rtmp://127.0.0.1" ++ server.rtmpAddr ++ "/" ++ app ++ "/" ++ name, url⟩ ∧
    (∀ k2, k2 ≠ "push:" ++ app ++ "/" ++ name →
      mapLookup ((handlePush server none (FormReq.form oper app name url)).2).session k2 =
        mapLookup server.session k2) ∧
    (handlePush server none (FormReq.form oper app name url)).1.data =
      RespData.str ("<h1>push url start " ++ url ++ " ok</h1></br>") ∧
    mapLookup ((handlePull server none (FormReq.form oper app name url)).2).session
        ("pull:" ++ app ++ "/" ++ name) =
      some ⟨url, "rtmp://127.0.0.1" ++ server.rtmpAddr ++ "/" ++ app ++ "/" ++ name⟩ ∧
    (∀ k2, k2 ≠ "pull:" ++ app ++ "/" ++ name →
      mapLookup ((handlePull server none (FormReq.form oper app name url)).2).session k2 =
        mapLookup server.session k2) ∧
    (handlePull server none (FormReq.form oper app name url)).1.data =
      RespData.str ("<h1>push url start " ++ url ++ " ok</h1></br>") := by
  rw [handlePush_start_err server oper app name url e ha hn hu ho,
      handlePull_start_err server oper app name url e ha hn hu ho,
      handlePush_start_ok server oper app name url ha hn hu ho,
      handlePull_start_ok server oper app name url ha hn hu ho]
  refine ⟨rfl, rfl, mapLookup_mapInsert_self _ _ _, ?_, rfl,
    mapLookup_mapInsert_self _ _ _, ?_, rfl⟩
  · intro k2 hk2
    exact mapLookup_mapInsert_ne _ _ _ _ hk2
  · intro k2 hk2
    exact mapLookup_mapInsert_ne _ _ _ _ hk2

/-- C4 witness: the failing-start case of the claim at a concrete input. -/
theorem C4_witness :
    handlePush ⟨[], ":1935"⟩ (some "connect refused")
        (FormReq.form "start" "live" "room1" "rtmp://u") =
      (⟨200, RespData.str ("push error=" ++ "connect refused")⟩, ⟨[], ":1935"⟩) :=
  (C4_start_effect ⟨[], ":1935"⟩ "start" "live" "room1" "rtmp://u" "connect refused"
    (by decide) (by decide) (by decide) (by decide)).1

/-- C5: a control or stats request whose authorization header differs from the
configured shared secret is answered with status 401 and the fixed body
Unauthorized, and the state (session registry, room keys, streams) is
untouched, whatever the operation was. -/
theorem C5_auth_gate (apiKey : String) (headers : List (String × String))
    (op : ApiOp) (w : World) (startErr : Option String) (newKey : String)
    (h : headerGet headers "authorization" ≠ apiKey) :
    serve apiKey headers op w startErr newKey =
      (⟨401, RespData.str "Unauthorized"⟩, w) := by
  have hb : checkAuth apiKey headers = true := by
    simp [checkAuth, h]
  simp [serve, hb]

/-- C5 witness: a wrong shared secret on a push request at a concrete state. -/
theorem C5_witness :
    serve "secret" [("authorization", "wrong")]
        (ApiOp.push (FormReq.form "start" "live" "room1" "rtmp://u"))
        ⟨⟨[], ":1935"⟩, ⟨[]⟩, []⟩ none "k" =
      (⟨401, RespData.str "Unauthorized"⟩, ⟨⟨[], ":1935"⟩, ⟨[]⟩, []⟩) :=
  C5_auth_gate "secret" [("authorization", "wrong")]
    (ApiOp.push (FormReq.form "start" "live" "room1" "rtmp://u"))
    ⟨⟨[], ":1935"⟩, ⟨[]⟩, []⟩ none "k" (by decide)

/-- C6: every publishers entry of the all-streams projection arises from a
stream whose reader is the instrumented VirReader, and every players entry
from a writer-set entry holding the instrumented VirWriter; anything else is
skipped (the projection is total, so no error output exists). -/
theorem C6_statics_only_vir (reg : List (String × Stream)) :
    (∀ e ∈ (getLiveStatics reg).publishers,
      ∃ k s url bw, (k, s) ∈ reg ∧ s.reader = some (Reader.virReader url bw) ∧
        e = mkStat k url bw) ∧
    (∀ e ∈ (getLiveStatics reg).players,
      ∃ k s wk url bw, (k, s) ∈ reg ∧ (wk, some (Writer.virWriter url bw)) ∈ s.ws ∧
        e = mkStat k url bw) := by
  constructor
  · intro e he
    simp only [getLiveStatics, List.mem_filterMap] at he
    obtain ⟨⟨k, s⟩, hmem, hf⟩ := he
    cases hr : s.reader with
    | none =>
      rw [hr] at hf
      exact Option.noConfusion hf
    | some r =>
      cases r with
      | virReader url bw =>
        rw [hr] at hf
        exact ⟨k, s, url, bw, hmem, hr, (Option.some.inj hf).symm⟩
      | otherReader =>
        rw [hr] at hf
        exact Option.noConfusion hf
  · intro e he
    simp only [getLiveStatics, List.mem_flatMap] at he
    obtain ⟨⟨k, s⟩, hmem, he2⟩ := he
    simp only [List.mem_filterMap] at he2
    obtain ⟨⟨wk, wo⟩, hwmem, hf⟩ := he2
    cases wo with
    | none => exact Option.noConfusion hf
    | some wr =>
      cases wr with
      | virWriter url bw =>
        exact ⟨k, s, wk, url, bw, hmem, hwmem, (Option.some.inj hf).symm⟩
      | otherWriter => exact Option.noConfusion hf

/-- C6 witness: the publishers characterization applied to a one-stream
registry whose reader is the instrumented variant. -/
theorem C6_witness :
    ∃ k s url bw,
      (k, s) ∈ [("live/room1",
        (⟨some (Reader.virReader "rtmp://u" ⟨1, 2, 3, 4, 5⟩), []⟩ : Stream))] ∧
      s.reader = some (Reader.virReader url bw) ∧
      mkStat "live/room1" "rtmp://u" ⟨1, 2, 3, 4, 5⟩ = mkStat k url bw :=
  (C6_statics_only_vir [("live/room1",
      ⟨some (Reader.virReader "rtmp://u" ⟨1, 2, 3, 4, 5⟩), []⟩)]).1
    (mkStat "live/room1" "rtmp://u" ⟨1, 2, 3, 4, 5⟩) (by decide)

/-- C7: the one-room projection resolves the stream by key `live/<room>` and
answers exactly: 404 not-found when the key is absent, 500 no-readers when the
stream has no reader, 500 wrong-variant when the reader is not the
instrumented VirReader, and 200 with one publisher-shaped record keyed
`live/<room>` otherwise. -/
theorem C7_livestat_cases (reg : List (String × Stream)) (room : String) :
    (mapLookup reg ("live/" ++ room) = none →
      getLiveStat reg room = ⟨404, RespData.str "No room was found"⟩) ∧
    (∀ s, mapLookup reg ("live/" ++ room) = some s →
      (s.reader = none →
        getLiveStat reg room = ⟨500, RespData.str "This room has no readers"⟩) ∧
      (s.reader = some Reader.otherReader →
        getLiveStat reg room =
          ⟨500, RespData.str "Reader returned by RTMP stream was not virtual reader."⟩) ∧
      (∀ url bw, s.reader = some (Reader.virReader url bw) →
        getLiveStat reg room =
          ⟨200, RespData.stat (mkStat ("live/" ++ room) url bw)⟩)) := by
  constructor
  · intro h
    simp [getLiveStat, h]
  · intro s h
    refine ⟨?_, ?_, ?_⟩
    · intro hr
      simp [getLiveStat, h, hr]
    · intro hr
      simp [getLiveStat, h, hr]
    · intro url bw hr
      simp [getLiveStat, h, hr, mkStat]

/-- C7 witness: the not-found case on an empty stream registry. -/
theorem C7_witness :
    getLiveStat ([] : List (String × Stream)) "missing-room" =
      ⟨404, RespData.str "No room was found"⟩ :=
  (C7_livestat_cases [] "missing-room").1 rfl

/-- C8: for a start with non-empty app, name and url, the local URL is
`rtmp://127.0.0.1<rtmpAddr>/<app>/<name>`; the push relay is created reading
from the local URL and publishing to the request url, the pull relay reading
from the request url and publishing to the local URL — visible as the relay
value stored under the session key. -/
theorem C8_relay_urls (server : Server) (oper app name url : String)
    (ha : 0 < app.length) (hn : 0 < name.length) (hu : 0 < url.length)
    (ho : oper ≠ "stop") :
    mapLookup ((handlePush server none (FormReq.form oper app name url)).2).session
        ("push:" ++ app ++ "/" ++ name) =
      some { playUrl := "rtmp://127.0.0.1" ++ server.rtmpAddr ++ "/" ++ app ++ "/" ++ name,
             publishUrl := url } ∧
    mapLookup ((handlePull server none (FormReq.form oper app name url)).2).session
        ("pull:" ++ app ++ "/" ++ name) =
      some { playUrl := url,
             publishUrl := "rtmp://127.0.0.1" ++ server.rtmpAddr ++ "/" ++ app ++ "/" ++ name } := by
  rw [handlePush_start_ok server oper app name url ha hn hu ho,
      handlePull_start_ok server oper app name url ha hn hu ho]
  exact ⟨mapLookup_mapInsert_self _ _ _, mapLookup_mapInsert_self _ _ _⟩

/-- C8 witness: the stored push relay at a concrete start request. -/
theorem C8_witness :
    mapLookup ((handlePush ⟨[], ":1935"⟩ none
        (FormReq.form "start" "live" "room1" "rtmp://203.0.113.5/live/room1")).2).session
      ("push:" ++ "live" ++ "/" ++ "room1") =
      some { playUrl := "rtmp://127.0.0.1" ++ ":1935" ++ "/" ++ "live" ++ "/" ++ "room1",
             publishUrl := "rtmp://203.0.113.5/live/room1" } :=
  (C8_relay_urls ⟨[], ":1935"⟩ "start" "live" "room1" "rtmp://203.0.113.5/live/room1"
    (by decide) (by decide) (by decide) (by decide)).1

/-- C9: with non-empty app, name and url, any oper other than the exact string
stop behaves exactly as oper=start on both handlers, and with a succeeding
worker start the session key is inserted: oper is never validated against the
set containing start and stop. -/
theorem C9_oper_never_validated (server : Server) (startErr : Option String)
    (oper app name url : String)
    (ha : 0 < app.length) (hn : 0 < name.length) (hu : 0 < url.length)
    (ho : oper ≠ "stop") :
    handlePush server startErr (FormReq.form oper app name url) =
      handlePush server startErr (FormReq.form "start" app name url) ∧
    handlePull server startErr (FormReq.form oper app name url) =
      handlePull server startErr (FormReq.form "start" app name url) ∧
    ((handlePush server none (FormReq.form oper app name url)).2).session =
      mapInsert server.session ("push:" ++ app ++ "/" ++ name)
        ⟨"rtmp://127.0.0.1" ++ server.rtmpAddr ++ "/" ++ app ++ "/" ++ name, url⟩ ∧
    ((handlePull server none (FormReq.form oper app name url)).2).session =
      mapInsert server.session ("pull:" ++ app ++ "/" ++ name)
        ⟨url, "rtmp://127.0.0.1" ++ server.rtmpAddr ++ "/" ++ app ++ "/" ++ name⟩ := by
  have hne : ("start" : String) ≠ "stop" := by decide
  refine ⟨?_, ?_, ?_, ?_⟩
  · cases startErr with
    | none =>
      rw [handlePush_start_ok server oper app name url ha hn hu ho,
          handlePush_start_ok server "start" app name url ha hn hu hne]
    | some e =>
      rw [handlePush_start_err server oper app name url e ha hn hu ho,
          handlePush_start_err server "start" app name url e ha hn hu hne]
  · cases startErr with
    | none =>
      rw [handlePull_start_ok server oper app name url ha hn hu ho,
          handlePull_start_ok server "start" app name url ha hn hu hne]
    | some e =>
      rw [handlePull_start_err server oper app name url e ha hn hu ho,
          handlePull_start_err server "start" app name url e ha hn hu hne]
  · rw [handlePush_start_ok server oper app name url ha hn hu ho]
  · rw [handlePull_start_ok server oper app name url ha hn hu ho]

/-- C9 witness: a missing oper (empty string) takes the start path. -/
theorem C9_witness :
    handlePush ⟨[], ":1935"⟩ none (FormReq.form "" "live" "room1" "rtmp://u") =
      handlePush ⟨[], ":1935"⟩ none (FormReq.form "start" "live" "room1" "rtmp://u") :=
  (C9_oper_never_validated ⟨[], ":1935"⟩ none "" "live" "room1" "rtmp://u"
    (by decide) (by decide) (by decide) (by decide)).1

/-- C10: with an empty configured shared secret, a request carrying no
authorization header passes the static key gate (the header getter yields the
empty string, which equals the expected key), so the handler body runs. -/
theorem C10_empty_key_no_header (headers : List (String × String)) (op : ApiOp)
    (w : World) (startErr : Option String) (newKey : String)
    (h : mapLookup headers "authorization" = none) :
    checkAuth "" headers = false ∧
    serve "" headers op w startErr newKey = dispatch op w startErr newKey := by
  have hg : headerGet headers "authorization" = "" := by
    simp [headerGet, h]
  have hc : checkAuth "" headers = false := by
    simp [checkAuth, hg]
  exact ⟨hc, by simp [serve, hc]⟩

/-- C10 witness: a header set without an authorization entry passes the gate
when the key is empty. -/
theorem C10_witness :
    checkAuth "" [("content-type", "application/json")] = false ∧
    serve "" [("content-type", "application/json")] ApiOp.livestats
        ⟨⟨[], ":1935"⟩, ⟨[]⟩, []⟩ none "k" =
      dispatch ApiOp.livestats ⟨⟨[], ":1935"⟩, ⟨[]⟩, []⟩ none "k" :=
  C10_empty_key_no_header [("content-type", "application/json")] ApiOp.livestats
    ⟨⟨[], ":1935"⟩, ⟨[]⟩, []⟩ none "k" (by decide)

end LiveApi
